import Mathlib

/-!
Verification development for the oakCamV3 repository.

Each Python module relevant to the checked claims is shallowly embedded:
dictionaries of settings become Lean structures or association lists,
Python ints become `Int`, Python floats become `ℚ` (for the exact
clamping comparisons of the ROI manager) or `ℝ` (for the trigonometric
Haversine distance), and interactions with the outside world
(cv2.imwrite, serial ports, frame queues) become explicit oracle
parameters describing the outcome of each external call.
-/

namespace CameraSettings

/-- Setting constraints of `CameraSettingsManager` (camera/settings.py). -/
def EXPOSURE_MIN : Int := 1

def EXPOSURE_MAX : Int := 33000

def ISO_MIN : Int := 100

def ISO_MAX : Int := 1600

def FOCUS_MIN : Int := 0

def FOCUS_MAX : Int := 255

def BRIGHTNESS_MIN : Int := -10

def BRIGHTNESS_MAX : Int := 10

def CONTRAST_MIN : Int := -10

def CONTRAST_MAX : Int := 10

def SATURATION_MIN : Int := -10

def SATURATION_MAX : Int := 10

def SHARPNESS_MIN : Int := 0

def SHARPNESS_MAX : Int := 4

def WB_MIN : Int := 1000

def WB_MAX : Int := 12000

/-- The integer-valued entries of the `settings` dictionary of
`CameraSettingsManager` that the ten clamping setters touch.  The
dictionary also holds fps, resolution and the GPS interval, which no
setter below reads or writes, so they are not part of this record. -/
structure Settings where
  exposure : Int
  iso : Int
  focus : Int
  brightness : Int
  contrast : Int
  saturation : Int
  sharpness : Int
  white_balance : Int
  luma_denoise : Int
  chroma_denoise : Int
deriving Repr, DecidableEq

/-- Default values of the `settings` dictionary (`__init__`). -/
def defaultSettings : Settings :=
  { exposure := 20000, iso := 800, focus := 130, brightness := 0,
    contrast := 0, saturation := 0, sharpness := 1, white_balance := 4000,
    luma_denoise := 1, chroma_denoise := 1 }

/-- `_clamp`: `max(min_val, min(value, max_val))`. -/
def _clamp (value minVal maxVal : Int) : Int :=
  max minVal (min value maxVal)

/-- `set_exposure` (the dictionary write; the camera-control send is I/O). -/
def set_exposure (s : Settings) (value : Int) : Settings :=
  { s with exposure := _clamp value EXPOSURE_MIN EXPOSURE_MAX }

/-- `set_iso`. -/
def set_iso (s : Settings) (value : Int) : Settings :=
  { s with iso := _clamp value ISO_MIN ISO_MAX }

/-- `set_focus`. -/
def set_focus (s : Settings) (value : Int) : Settings :=
  { s with focus := _clamp value FOCUS_MIN FOCUS_MAX }

/-- `set_brightness`. -/
def set_brightness (s : Settings) (value : Int) : Settings :=
  { s with brightness := _clamp value BRIGHTNESS_MIN BRIGHTNESS_MAX }

/-- `set_contrast`. -/
def set_contrast (s : Settings) (value : Int) : Settings :=
  { s with contrast := _clamp value CONTRAST_MIN CONTRAST_MAX }

/-- `set_saturation`. -/
def set_saturation (s : Settings) (value : Int) : Settings :=
  { s with saturation := _clamp value SATURATION_MIN SATURATION_MAX }

/-- `set_sharpness`. -/
def set_sharpness (s : Settings) (value : Int) : Settings :=
  { s with sharpness := _clamp value SHARPNESS_MIN SHARPNESS_MAX }

/-- `set_white_balance`. -/
def set_white_balance (s : Settings) (value : Int) : Settings :=
  { s with white_balance := _clamp value WB_MIN WB_MAX }

/-- `set_luma_denoise` clamps with the literals 0 and 4. -/
def set_luma_denoise (s : Settings) (value : Int) : Settings :=
  { s with luma_denoise := _clamp value 0 4 }

/-- `set_chroma_denoise` clamps with the literals 0 and 4. -/
def set_chroma_denoise (s : Settings) (value : Int) : Settings :=
  { s with chroma_denoise := _clamp value 0 4 }

/-- For one field: the stored value is the clamp, lies in the range, and
equals the input when the input is already in range. -/
def ClampSpec (stored v lo hi : Int) : Prop :=
  stored = _clamp v lo hi ∧ lo ≤ stored ∧ stored ≤ hi ∧
    (lo ≤ v ∧ v ≤ hi → stored = v)

end CameraSettings

namespace ROI

/-- The `ROISettings` dataclass of camera/roi_manager.py.  Python floats
are modelled as rationals (the clamping logic only compares and copies
them). -/
structure ROISettings where
  enabled : Bool := false
  x : ℚ := 1/2
  y : ℚ := 1/2
  width : ℚ := 3/10
  height : ℚ := 3/10
  exposure_compensation : Int := 0
  focus_region : Bool := false
deriving Repr, DecidableEq

/-- Dictionary lookup `self.roi_settings.get(camera_name)` /
`camera_name in self.roi_settings`. -/
def lookupROI (m : List (String × ROISettings)) (k : String) : Option ROISettings :=
  (m.find? (fun p => p.1 == k)).map (fun p => p.2)

/-- Assignment `self.roi_settings[camera_name] = v` for a key already
present: replace in place. -/
def updateROI (m : List (String × ROISettings)) (k : String) (v : ROISettings) :
    List (String × ROISettings) :=
  m.map (fun p => if p.1 == k then (k, v) else p)

/-- Assignment `self.settings_changed[camera_name] = b` (insert or
replace). -/
def setFlag (m : List (String × Bool)) (k : String) (b : Bool) : List (String × Bool) :=
  if (m.find? (fun p => p.1 == k)).isSome then
    m.map (fun p => if p.1 == k then (k, b) else p)
  else m ++ [(k, b)]

/-- The `ROIManager` fields that its public mutators touch.  The mouse
bookkeeping fields (start/current point, active flag) only feed
`_apply_mouse_roi`, which is modelled directly below, and the camera
side of `_apply_roi_settings` is I/O. -/
structure ROIManagerState where
  roi_settings : List (String × ROISettings)
  settings_changed : List (String × Bool)
  running : Bool
deriving Repr, DecidableEq

/-- The `ROIManager.__init__` state: empty dictionaries, not running. -/
def initialROIState : ROIManagerState := ⟨[], [], false⟩

/-- `_initialize_roi_settings`: add a default `ROISettings` for CAM_A
when CAM_A is connected and not yet present. -/
def initialize_for_cameras (st : ROIManagerState) (connected : List String) :
    ROIManagerState :=
  if connected.contains "CAM_A" && !(lookupROI st.roi_settings "CAM_A").isSome then
    { st with roi_settings := st.roi_settings ++ [("CAM_A", {})],
              settings_changed := setFlag st.settings_changed "CAM_A" true }
  else st

/-- `set_roi_position`: clamps both coordinates to [0, 1]. -/
def set_roi_position (st : ROIManagerState) (camera_name : String) (x y : ℚ) :
    ROIManagerState :=
  match lookupROI st.roi_settings camera_name with
  | none => st
  | some r =>
    { st with
      roi_settings := updateROI st.roi_settings camera_name
        { r with x := max 0 (min 1 x), y := max 0 (min 1 y) },
      settings_changed := setFlag st.settings_changed camera_name true }

/-- `set_roi_size`: clamps both sizes to [0.1, 1]. -/
def set_roi_size (st : ROIManagerState) (camera_name : String) (w h : ℚ) :
    ROIManagerState :=
  match lookupROI st.roi_settings camera_name with
  | none => st
  | some r =>
    { st with
      roi_settings := updateROI st.roi_settings camera_name
        { r with width := max (1/10) (min 1 w), height := max (1/10) (min 1 h) },
      settings_changed := setFlag st.settings_changed camera_name true }

/-- `set_exposure_compensation`: clamps to [-9, 9]. -/
def set_exposure_compensation (st : ROIManagerState) (camera_name : String)
    (compensation : Int) : ROIManagerState :=
  match lookupROI st.roi_settings camera_name with
  | none => st
  | some r =>
    { st with
      roi_settings := updateROI st.roi_settings camera_name
        { r with exposure_compensation := max (-9) (min 9 compensation) },
      settings_changed := setFlag st.settings_changed camera_name true }

/-- `enable_roi`: sets the `enabled` flag only. -/
def enable_roi (st : ROIManagerState) (camera_name : String) (enabled : Bool) :
    ROIManagerState :=
  match lookupROI st.roi_settings camera_name with
  | none => st
  | some r =>
    { st with
      roi_settings := updateROI st.roi_settings camera_name { r with enabled := enabled },
      settings_changed := setFlag st.settings_changed camera_name true }

/-- `set_focus_region`: sets the `focus_region` flag only. -/
def set_focus_region (st : ROIManagerState) (camera_name : String) (enabled : Bool) :
    ROIManagerState :=
  match lookupROI st.roi_settings camera_name with
  | none => st
  | some r =>
    { st with
      roi_settings := updateROI st.roi_settings camera_name
        { r with focus_region := enabled },
      settings_changed := setFlag st.settings_changed camera_name true }

/-- `set_roi_settings`: stores the given record as is (no clamping). -/
def set_roi_settings (st : ROIManagerState) (camera_name : String)
    (settings : ROISettings) : ROIManagerState :=
  if (lookupROI st.roi_settings camera_name).isSome then
    { st with roi_settings := updateROI st.roi_settings camera_name settings,
              settings_changed := setFlag st.settings_changed camera_name true }
  else st

/-- `reset_roi_settings`: stores a default record. -/
def reset_roi_settings (st : ROIManagerState) (camera_name : String) :
    ROIManagerState :=
  if (lookupROI st.roi_settings camera_name).isSome then
    { st with roi_settings := updateROI st.roi_settings camera_name {},
              settings_changed := setFlag st.settings_changed camera_name true }
  else st

/-- `_apply_mouse_roi` (reached from `handle_mouse_event` on mouseup):
converts the mouse rectangle to normalized center/size, enforcing only a
0.05 minimum size, and stores it with `enabled := true`.  A zero frame
dimension raises ZeroDivisionError, which the surrounding `except`
swallows, leaving the state unchanged.  Python `//` is floor
division (`Int.fdiv`). -/
def apply_mouse_roi (st : ROIManagerState) (camera_name : String)
    (start_point end_point : Int × Int) (frame_width frame_height : Int) :
    ROIManagerState :=
  if frame_width = 0 ∨ frame_height = 0 then st
  else
    let roi_start_x := min start_point.1 end_point.1
    let roi_start_y := min start_point.2 end_point.2
    let roi_end_x := max start_point.1 end_point.1
    let roi_end_y := max start_point.2 end_point.2
    let roi_center_x := Int.fdiv (roi_start_x + roi_end_x) 2
    let roi_center_y := Int.fdiv (roi_start_y + roi_end_y) 2
    let roi_width := roi_end_x - roi_start_x
    let roi_height := roi_end_y - roi_start_y
    let norm_center_x : ℚ := (roi_center_x : ℚ) / (frame_width : ℚ)
    let norm_center_y : ℚ := (roi_center_y : ℚ) / (frame_height : ℚ)
    let min_size : ℚ := 1/20
    let norm_width : ℚ := max ((roi_width : ℚ) / (frame_width : ℚ)) min_size
    let norm_height : ℚ := max ((roi_height : ℚ) / (frame_height : ℚ)) min_size
    match lookupROI st.roi_settings camera_name with
    | none => st
    | some r =>
      { st with
        roi_settings := updateROI st.roi_settings camera_name
          { r with x := norm_center_x, y := norm_center_y,
                   width := norm_width, height := norm_height, enabled := true },
        settings_changed := setFlag st.settings_changed camera_name true }

/-- `stop_roi_processing`: clears the running flag (the join is I/O). -/
def stop_roi_processing (st : ROIManagerState) : ROIManagerState :=
  { st with running := false }

/-- `_roi_processing_loop` as a fuel-indexed run: each iteration first
tests `self.running` and only then executes the body (the CAM_A
re-application step, abstracted as an arbitrary state transformer since
it never writes `running` in the source).  The result carries the
number of body iterations executed. -/
def roi_run (body : ROIManagerState → ROIManagerState) :
    Nat → ROIManagerState → ROIManagerState × Nat
  | 0, st => (st, 0)
  | fuel + 1, st =>
    if st.running then
      let t := roi_run body fuel (body st)
      (t.1, t.2 + 1)
    else (st, 0)

/-- One public mutation of the ROI manager. -/
inductive ROIOp where
  | setPosition (camera_name : String) (x y : ℚ)
  | setSize (camera_name : String) (w h : ℚ)
  | setExposureComp (camera_name : String) (compensation : Int)
  | setSettings (camera_name : String) (settings : ROISettings)
  | mouseRoi (camera_name : String) (p1 p2 : Int × Int) (fw fh : Int)
  | enableOp (camera_name : String) (b : Bool)
  | focusRegionOp (camera_name : String) (b : Bool)
  | resetOp (camera_name : String)
  | initOp (connected : List String)
deriving Repr

/-- Dispatch one operation. -/
def applyOp (st : ROIManagerState) : ROIOp → ROIManagerState
  | .setPosition cam x y => set_roi_position st cam x y
  | .setSize cam w h => set_roi_size st cam w h
  | .setExposureComp cam c => set_exposure_compensation st cam c
  | .setSettings cam s => set_roi_settings st cam s
  | .mouseRoi cam p1 p2 fw fh => apply_mouse_roi st cam p1 p2 fw fh
  | .enableOp cam b => enable_roi st cam b
  | .focusRegionOp cam b => set_focus_region st cam b
  | .resetOp cam => reset_roi_settings st cam
  | .initOp connected => initialize_for_cameras st connected

/-- The operations that actually clamp (or copy already-clamped data):
everything except `set_roi_settings` and the mouse ROI path. -/
def clampingOp : ROIOp → Bool
  | .setSettings _ _ => false
  | .mouseRoi _ _ _ _ _ => false
  | _ => true

/-- The numeric-clamping invariant claimed for a stored `ROISettings`. -/
def ROIInv (r : ROISettings) : Prop :=
  0 ≤ r.x ∧ r.x ≤ 1 ∧ 0 ≤ r.y ∧ r.y ≤ 1 ∧
    1/10 ≤ r.width ∧ r.width ≤ 1 ∧ 1/10 ≤ r.height ∧ r.height ≤ 1 ∧
    -9 ≤ r.exposure_compensation ∧ r.exposure_compensation ≤ 9

instance (r : ROISettings) : Decidable (ROIInv r) := by
  unfold ROIInv; infer_instance

/-- Every record stored in `roi_settings` satisfies the invariant. -/
def StateInv (st : ROIManagerState) : Prop :=
  ∀ p ∈ st.roi_settings, ROIInv p.2

instance (st : ROIManagerState) : Decidable (StateInv st) := by
  unfold StateInv; infer_instance

/-- A syntactically well-typed `ROISettings` argument for
`set_roi_settings` whose center x lies outside [0, 1]. -/
def badROISettings : ROISettings :=
  { enabled := true, x := 2, y := 0, width := 1, height := 1,
    exposure_compensation := 0, focus_region := false }

end ROI

namespace GPS

/-- A non-empty Python dict passed to `calculate_distance`, with its
optional `latitude` / `longitude` entries (`dict.get` defaults to 0).
`Option GpsFix` is the argument type: `none` models the falsy inputs
(`None` or the empty dict) rejected by `if not gps1 or not gps2`. -/
structure GpsFix where
  latitude : Option ℝ
  longitude : Option ℝ

/-- `math.radians`. -/
noncomputable def radians (degrees : ℝ) : ℝ := degrees * (Real.pi / 180)

open Classical

/-- `GPSIntegration.calculate_distance` (GPS/util/gps_integration.py). -/
noncomputable def calculate_distance (gps1 gps2 : Option GpsFix) : ℝ :=
  match gps1, gps2 with
  | none, _ => 0
  | _, none => 0
  | some g1, some g2 =>
    let lat1 := g1.latitude.getD 0
    let lon1 := g1.longitude.getD 0
    let lat2 := g2.latitude.getD 0
    let lon2 := g2.longitude.getD 0
    if lat1 = 0 ∧ lon1 = 0 ∧ lat2 = 0 ∧ lon2 = 0 then 0
    else
      let lat1_rad := radians lat1
      let lon1_rad := radians lon1
      let lat2_rad := radians lat2
      let lon2_rad := radians lon2
      let dlat := lat2_rad - lat1_rad
      let dlon := lon2_rad - lon1_rad
      let a := Real.sin (dlat / 2) ^ 2 +
        Real.cos lat1_rad * Real.cos lat2_rad * Real.sin (dlon / 2) ^ 2
      let c := 2 * Real.arcsin (Real.sqrt a)
      6371000 * c

/-- The 16 cardinal directions of `get_direction`. -/
def directions : List String :=
  ["N", "NNE", "NE", "ENE", "E", "ESE", "SE", "SSE",
   "S", "SSW", "SW", "WSW", "W", "WNW", "NW", "NNW"]

/-- `GPSIntegration.get_direction`: `round(degrees / 22.5) % 16` indexes
the list above (Python `%` on a positive modulus, i.e. `Int.emod`). -/
noncomputable def get_direction (degrees : Option ℝ) : Option String :=
  match degrees with
  | none => none
  | some d => some (directions.getD (round (d / 22.5) % 16).toNat "")

/-- `serial.PARITY_NONE` and friends. -/
inductive Parity where
  | NONE
  | ODD
  | EVEN
deriving Repr, DecidableEq

/-- The keyword arguments of a `serial.Serial(...)` call. -/
structure SerialPortConfig where
  baudrate : Nat
  timeout : Nat
  parity : Parity
  stopbits : Nat
  bytesize : Nat
deriving Repr, DecidableEq

/-- An open serial handle: the port it was opened on and its
configuration. -/
structure OpenSerial where
  port : String
  config : SerialPortConfig
deriving Repr, DecidableEq

/-- Outcomes of the external serial calls: what `find_gps_port` returns
and whether `serial.Serial` on a given port succeeds (otherwise it
raises `SerialException`). -/
structure SerialEnv where
  found_port : Option String
  open_ok : String → Bool

/-- The `GPSIntegration` fields written by connect/disconnect and read
by the monitor loop. -/
structure GPSIntegrationState where
  port : Option String
  ser : Option OpenSerial
  is_connected : Bool
  is_running : Bool
  current_data : Option GpsFix

/-- `GPSIntegration.connect_gps`. -/
def connect_gps (env : SerialEnv) (s : GPSIntegrationState) :
    Bool × GPSIntegrationState :=
  if s.is_connected then (true, s)
  else
    match env.found_port with
    | none => (false, { s with port := none })
    | some p =>
      if env.open_ok p then
        (true, { s with port := some p,
                        ser := some ⟨p, ⟨4800, 1, .NONE, 1, 8⟩⟩,
                        is_connected := true })
      else (false, { s with port := some p })

/-- `GPSIntegration.disconnect_gps`: clear the running flag, close and
drop the serial handle, clear connection state and data. -/
def disconnect_gps (s : GPSIntegrationState) : GPSIntegrationState :=
  { s with is_running := false, ser := none, is_connected := false,
           current_data := none }

/-- `_gps_monitor_loop` as a fuel-indexed run: each iteration first
tests `self.is_running and self.is_connected` and only then executes
the body (reading and parsing one NMEA line, abstracted as an arbitrary
state transformer since it never writes the two flags in the source).
The result carries the number of body iterations executed. -/
def gps_monitor_run (body : GPSIntegrationState → GPSIntegrationState) :
    Nat → GPSIntegrationState → GPSIntegrationState × Nat
  | 0, s => (s, 0)
  | fuel + 1, s =>
    if s.is_running && s.is_connected then
      let t := gps_monitor_run body fuel (body s)
      (t.1, t.2 + 1)
    else (s, 0)

end GPS

namespace GDC

/-- The `GPSDataCapture` fields written by its `connect_gps`
(GPS/gps_data_capture.py). -/
structure GDCState where
  port : Option String
  ser : Option GPS.OpenSerial
deriving Repr

/-- External outcomes for `GPSDataCapture.connect_gps`: the port search
result, the stripped manual `input()` fallback, and per-port open
success. -/
structure GDCEnv where
  found_port : Option String
  manual_input : String
  open_ok : String → Bool

/-- `GPSDataCapture.connect_gps`: falls back to a manually entered port
when the search fails, then opens it at 4800 baud / 1 s timeout / no
parity / one stop bit / eight data bits. -/
def connect_gps (env : GDCEnv) (s : GDCState) : Bool × GDCState :=
  let port :=
    match env.found_port with
    | some p => some p
    | none => if env.manual_input = "" then none else some env.manual_input
  match port with
  | none => (false, { s with port := none })
  | some p =>
    if env.open_ok p then
      (true, { port := some p, ser := some ⟨p, ⟨4800, 1, .NONE, 1, 8⟩⟩ })
    else (false, { s with port := some p })

/-- `GPSDataCapture.get_direction` (textually identical to the
`GPSIntegration` one). -/
noncomputable def get_direction (degrees : Option ℝ) : Option String :=
  match degrees with
  | none => none
  | some d => some (GPS.directions.getD (round (d / 22.5) % 16).toNat "")

end GDC

namespace CameraCtrl

/-- One DepthAI output queue as `get_frame` observes it: whether
`queue.has()` holds, and what `queue.get().getCvFrame()` would do
(return a frame — abstracted as its payload — or raise). -/
structure OutputQueue where
  has_frame : Bool
  get_result : Except String Nat
deriving Repr

/-- `CameraController.get_frame` (camera/controller.py): `None` when
the camera has no queue, the queue is empty, or retrieval raises. -/
def get_frame (output_queues : List (String × OutputQueue)) (camera_name : String) :
    Option Nat :=
  match output_queues.find? (fun p => p.1 == camera_name) with
  | none => none
  | some p =>
    let queue := p.2
    if queue.has_frame then
      match queue.get_result with
      | .ok frame => some frame
      | .error _ => none
    else none

end CameraCtrl

namespace FileMgr

/-- Outcome of a `cv2.imwrite` call wrapped in `try`: the boolean it
returned, or an exception raised anywhere in the `try` block. -/
inductive ImwriteOutcome where
  | ok (success : Bool)
  | raised
deriving Repr, DecidableEq

/-- `FileManager.capture_image` (utils/file_manager.py).  `timestamp`
stands for `datetime.now().strftime(...)[:-3]`. -/
def capture_image (save_directory camera_name : String) (format : String)
    (custom_filename : Option String) (timestamp : String)
    (imwrite : ImwriteOutcome) : Bool × String :=
  match imwrite with
  | .raised => (false, "")
  | .ok success =>
    let filename :=
      match custom_filename with
      | some c => save_directory ++ "/" ++ c ++ "." ++ format
      | none => save_directory ++ "/" ++ camera_name ++ "_" ++ timestamp ++ "." ++ format
    (success, if success then filename else "")

/-- A `cv2.VideoWriter`: its target filename and whether `isOpened()`
holds. -/
structure VideoWriter where
  filename : String
  is_opened : Bool
deriving Repr, DecidableEq

/-- The `FileManager` recording state. `recording_start_time` is an
epoch-seconds timestamp (`datetime.now()`). -/
structure FileManagerState where
  save_directory : String
  video_writers : List (String × VideoWriter)
  recording : Bool
  recording_start_time : Option ℚ
  current_codec : String
deriving Repr, DecidableEq

/-- Dict assignment `self.video_writers[camera_name] = writer`. -/
def insertWriter (m : List (String × VideoWriter)) (k : String) (v : VideoWriter) :
    List (String × VideoWriter) :=
  if (m.find? (fun p => p.1 == k)).isSome then
    m.map (fun p => if p.1 == k then (k, v) else p)
  else m ++ [(k, v)]

/-- `extension = "avi" if codec_name in ["MJPG", "XVID"] else "mp4"`. -/
def codecExtension (codec_name : String) : String :=
  if codec_name = "MJPG" ∨ codec_name = "XVID" then "avi" else "mp4"

/-- The per-camera loop of `start_video_recording`: create a writer for
each camera (`writer_opens` abstracts whether the `cv2.VideoWriter`
comes up opened); on the first writer that is not opened, report the
camera and the dictionary contents at that moment (which the source
then releases and clears). -/
def openWriters (writer_opens : String → Bool) (save_directory timestamp extension : String) :
    List String → List (String × VideoWriter) →
    Except (String × List (String × VideoWriter)) (List (String × VideoWriter))
  | [], acc => .ok acc
  | camera_name :: rest, acc =>
    let filename := save_directory ++ "/" ++ camera_name ++ "_video_" ++ timestamp ++
      "." ++ extension
    let writer : VideoWriter := ⟨filename, writer_opens camera_name⟩
    if writer.is_opened then
      openWriters writer_opens save_directory timestamp extension rest
        (insertWriter acc camera_name writer)
    else .error (camera_name, acc)

/-- The dictionary contents after successfully creating writers for a
list of cameras, starting from a given dictionary (used to state what
`openWriters` accumulates). -/
def writersAfter (writer_opens : String → Bool)
    (save_directory timestamp extension : String)
    (acc : List (String × VideoWriter)) : List String → List (String × VideoWriter)
  | [] => acc
  | camera_name :: rest =>
    writersAfter writer_opens save_directory timestamp extension
      (insertWriter acc camera_name
        ⟨save_directory ++ "/" ++ camera_name ++ "_video_" ++ timestamp ++ "." ++ extension,
         writer_opens camera_name⟩) rest

/-- `FileManager.start_video_recording`.  `strf` models
`datetime.strftime`, `now` the call time.  The third component of the
result is the list of writers released during the failure cleanup. -/
def start_video_recording (writer_opens : String → Bool) (strf : ℚ → String)
    (now : ℚ) (s : FileManagerState) (camera_names : List String)
    (codec : Option String) :
    (Bool × String) × FileManagerState × List VideoWriter :=
  if s.recording then ((false, "Recording already in progress"), s, [])
  else
    let timestamp := strf now
    let codec_name := codec.getD s.current_codec
    let extension := codecExtension codec_name
    match openWriters writer_opens s.save_directory timestamp extension
        camera_names s.video_writers with
    | .ok ws =>
      ((true, "Recording started for " ++ toString camera_names.length ++ " cameras"),
       { s with video_writers := ws, recording := true,
                recording_start_time := some now }, [])
    | .error (camera_name, opened) =>
      ((false, "Failed to create video writer for " ++ camera_name),
       { s with video_writers := [] }, opened.map (fun p => p.2))

/-- Python's `"{:.1f}".format` on the duration value. -/
def fmtFixed1 (q : ℚ) : String :=
  let n : Int := round (10 * q)
  (if n < 0 then "-" else "") ++ toString (n.natAbs / 10) ++ "." ++ toString (n.natAbs % 10)

/-- `FileManager.stop_video_recording`.  Faithful to the source order:
the writers are released and the filepaths reconstructed, the state is
cleared (including `recording_start_time = None`), and only then is the
duration computed from `recording_start_time` — which is `None` by that
point, so the duration is the literal 0. -/
def stop_video_recording (strf : ℚ → String) (now : ℚ) (s : FileManagerState) :
    (Bool × String × List String) × FileManagerState :=
  if !s.recording then ((false, "No recording in progress", []), s)
  else
    let timestamp :=
      match s.recording_start_time with
      | some t => strf t
      | none => "unknown"
    let extension := codecExtension s.current_codec
    let filepaths := s.video_writers.map
      (fun p => s.save_directory ++ "/" ++ p.1 ++ "_video_" ++ timestamp ++ "." ++ extension)
    let s2 := { s with video_writers := [], recording := false,
                       recording_start_time := none }
    let duration : ℚ :=
      match s2.recording_start_time with
      | some t => now - t
      | none => 0
    ((true, "Recording stopped. Duration: " ++ fmtFixed1 duration ++ "s", filepaths), s2)

end FileMgr

/-! ## Theorems -/

namespace CameraSettings

theorem clampSpec_of (v lo hi : Int) (h : lo ≤ hi) :
    ClampSpec (_clamp v lo hi) v lo hi := by
  unfold ClampSpec _clamp
  omega

/-- C1: every `CameraSettingsManager` setter stores the clamp of its
argument to the declared range into `settings`, so after any setter the
stored value lies within its range and equals the argument whenever the
argument was already inside the range. -/
theorem settings_setters_clamp (s : Settings) (v : Int) :
    ClampSpec ((set_exposure s v).exposure) v EXPOSURE_MIN EXPOSURE_MAX ∧
    ClampSpec ((set_iso s v).iso) v ISO_MIN ISO_MAX ∧
    ClampSpec ((set_focus s v).focus) v FOCUS_MIN FOCUS_MAX ∧
    ClampSpec ((set_brightness s v).brightness) v BRIGHTNESS_MIN BRIGHTNESS_MAX ∧
    ClampSpec ((set_contrast s v).contrast) v CONTRAST_MIN CONTRAST_MAX ∧
    ClampSpec ((set_saturation s v).saturation) v SATURATION_MIN SATURATION_MAX ∧
    ClampSpec ((set_sharpness s v).sharpness) v SHARPNESS_MIN SHARPNESS_MAX ∧
    ClampSpec ((set_white_balance s v).white_balance) v WB_MIN WB_MAX ∧
    ClampSpec ((set_luma_denoise s v).luma_denoise) v 0 4 ∧
    ClampSpec ((set_chroma_denoise s v).chroma_denoise) v 0 4 :=
  ⟨clampSpec_of v _ _ (by decide), clampSpec_of v _ _ (by decide),
   clampSpec_of v _ _ (by decide), clampSpec_of v _ _ (by decide),
   clampSpec_of v _ _ (by decide), clampSpec_of v _ _ (by decide),
   clampSpec_of v _ _ (by decide), clampSpec_of v _ _ (by decide),
   clampSpec_of v _ _ (by decide), clampSpec_of v _ _ (by decide)⟩

/-- Witness for C1 at concrete inputs: an in-range exposure is stored
unchanged, and out-of-range inputs of two other setters land on the
range bounds. -/
theorem settings_setters_clamp_witness :
    (set_exposure defaultSettings 500).exposure = 500 ∧
    (set_iso defaultSettings 99).iso = _clamp 99 ISO_MIN ISO_MAX ∧
    (set_brightness defaultSettings 42).brightness = _clamp 42 BRIGHTNESS_MIN BRIGHTNESS_MAX := by
  refine ⟨(settings_setters_clamp defaultSettings 500).1.2.2.2 (by decide),
    ((settings_setters_clamp defaultSettings 99).2.1).1,
    ((settings_setters_clamp defaultSettings 42).2.2.2.1).1⟩

end CameraSettings

namespace ROI

theorem lookupROI_mem {m : List (String × ROISettings)} {k : String} {r : ROISettings}
    (h : lookupROI m k = some r) : ∃ p ∈ m, p.2 = r := by
  unfold lookupROI at h
  cases hf : m.find? (fun p => p.1 == k) with
  | none => rw [hf] at h; simp at h
  | some p =>
    rw [hf] at h
    simp at h
    exact ⟨p, List.mem_of_find?_eq_some hf, h⟩

theorem mem_updateROI {m : List (String × ROISettings)} {k : String} {v : ROISettings}
    {p : String × ROISettings} (hp : p ∈ updateROI m k v) : p = (k, v) ∨ p ∈ m := by
  unfold updateROI at hp
  rcases List.mem_map.mp hp with ⟨q, hq, hqe⟩
  cases hqk : (q.1 == k) with
  | true => left; rw [hqk] at hqe; simpa using hqe.symm
  | false => right; rw [hqk] at hqe; simp at hqe; exact hqe ▸ hq

theorem updateROI_inv {m : List (String × ROISettings)} {k : String} {v : ROISettings}
    (hm : ∀ p ∈ m, ROIInv p.2) (hv : ROIInv v) :
    ∀ p ∈ updateROI m k v, ROIInv p.2 := by
  intro p hp
  rcases mem_updateROI hp with h | h
  · rw [h]; exact hv
  · exact hm p h

theorem clamp01_mem (x : ℚ) : 0 ≤ max 0 (min 1 x) ∧ max 0 (min 1 x) ≤ 1 :=
  ⟨le_max_left 0 _, max_le (by norm_num) (min_le_left 1 x)⟩

theorem clampSize_mem (x : ℚ) :
    1/10 ≤ max (1/10) (min 1 x) ∧ max (1/10) (min 1 x) ≤ 1 :=
  ⟨le_max_left _ _, max_le (by norm_num) (min_le_left 1 x)⟩

theorem clampComp_mem (c : Int) : -9 ≤ max (-9) (min 9 c) ∧ max (-9) (min 9 c) ≤ 9 := by
  omega

theorem default_roi_inv : ROIInv {} := by
  unfold ROIInv
  norm_num

theorem clampingOp_preserves_inv (st : ROIManagerState) (op : ROIOp)
    (hop : clampingOp op = true) (h : StateInv st) : StateInv (applyOp st op) := by
  cases op with
  | setPosition cam x y =>
    simp only [applyOp, set_roi_position]
    cases hl : lookupROI st.roi_settings cam with
    | none => exact h
    | some r =>
      obtain ⟨q, hq, hq2⟩ := lookupROI_mem hl
      have hr : ROIInv r := hq2 ▸ h q hq
      obtain ⟨-, -, -, -, h5, h6, h7, h8, h9, h10⟩ := hr
      have hv : ROIInv { r with x := max 0 (min 1 x), y := max 0 (min 1 y) } :=
        ⟨(clamp01_mem x).1, (clamp01_mem x).2, (clamp01_mem y).1, (clamp01_mem y).2,
         h5, h6, h7, h8, h9, h10⟩
      intro p hp
      exact updateROI_inv h hv p hp
  | setSize cam w hgt =>
    simp only [applyOp, set_roi_size]
    cases hl : lookupROI st.roi_settings cam with
    | none => exact h
    | some r =>
      obtain ⟨q, hq, hq2⟩ := lookupROI_mem hl
      have hr : ROIInv r := hq2 ▸ h q hq
      obtain ⟨h1, h2, h3, h4, -, -, -, -, h9, h10⟩ := hr
      have hv : ROIInv { r with width := max (1/10) (min 1 w), height := max (1/10) (min 1 hgt) } :=
        ⟨h1, h2, h3, h4, (clampSize_mem w).1, (clampSize_mem w).2,
         (clampSize_mem hgt).1, (clampSize_mem hgt).2, h9, h10⟩
      intro p hp
      exact updateROI_inv h hv p hp
  | setExposureComp cam c =>
    simp only [applyOp, set_exposure_compensation]
    cases hl : lookupROI st.roi_settings cam with
    | none => exact h
    | some r =>
      obtain ⟨q, hq, hq2⟩ := lookupROI_mem hl
      have hr : ROIInv r := hq2 ▸ h q hq
      obtain ⟨h1, h2, h3, h4, h5, h6, h7, h8, -, -⟩ := hr
      have hv : ROIInv { r with exposure_compensation := max (-9) (min 9 c) } :=
        ⟨h1, h2, h3, h4, h5, h6, h7, h8, (clampComp_mem c).1, (clampComp_mem c).2⟩
      intro p hp
      exact updateROI_inv h hv p hp
  | setSettings cam s => simp [clampingOp] at hop
  | mouseRoi cam p1 p2 fw fh => simp [clampingOp] at hop
  | enableOp cam b =>
    simp only [applyOp, enable_roi]
    cases hl : lookupROI st.roi_settings cam with
    | none => exact h
    | some r =>
      obtain ⟨q, hq, hq2⟩ := lookupROI_mem hl
      have hr : ROIInv r := hq2 ▸ h q hq
      have hv : ROIInv { r with enabled := b } := hr
      intro p hp
      exact updateROI_inv h hv p hp
  | focusRegionOp cam b =>
    simp only [applyOp, set_focus_region]
    cases hl : lookupROI st.roi_settings cam with
    | none => exact h
    | some r =>
      obtain ⟨q, hq, hq2⟩ := lookupROI_mem hl
      have hr : ROIInv r := hq2 ▸ h q hq
      have hv : ROIInv { r with focus_region := b } := hr
      intro p hp
      exact updateROI_inv h hv p hp
  | resetOp cam =>
    simp only [applyOp, reset_roi_settings]
    cases hc : (lookupROI st.roi_settings cam).isSome with
    | false => simp only [hc, Bool.false_eq_true, if_false]; exact h
    | true =>
      simp only [hc, if_true]
      intro p hp
      exact updateROI_inv h default_roi_inv p hp
  | initOp connected =>
    simp only [applyOp, initialize_for_cameras]
    cases hc : (connected.contains "CAM_A" && !(lookupROI st.roi_settings "CAM_A").isSome) with
    | false => simp only [hc, Bool.false_eq_true, if_false]; exact h
    | true =>
      simp only [hc, if_true]
      intro p hp
      rcases List.mem_append.mp hp with hm | hm
      · exact h p hm
      · rw [List.mem_singleton] at hm
        rw [hm]
        exact default_roi_inv

end ROI

namespace ROI

/-- C2 counterexample: the claim is false as stated.  Starting from the
initialized manager, a single `set_roi_settings` call stores a record
with x = 2, violating the claimed 0 ≤ x ≤ 1 invariant, because
`set_roi_settings` performs no clamping. -/
theorem roi_invariant_counterexample :
    ¬ StateInv (applyOp (applyOp initialROIState (ROIOp.initOp ["CAM_A"]))
        (ROIOp.setSettings "CAM_A" badROISettings)) := by
  intro h
  have hmem : ("CAM_A", badROISettings) ∈
      (applyOp (applyOp initialROIState (ROIOp.initOp ["CAM_A"]))
        (ROIOp.setSettings "CAM_A" badROISettings)).roi_settings := by
    show ("CAM_A", badROISettings) ∈ [("CAM_A", badROISettings)]
    exact List.mem_singleton.mpr rfl
  have hx : badROISettings.x ≤ 1 := (h _ hmem).2.1
  have : ¬ ((2 : ℚ) ≤ 1) := by norm_num
  exact this hx

/-- C2 (amended): after any sequence of the clamping ROI operations
(`set_roi_position`, `set_roi_size`, `set_exposure_compensation`,
`enable_roi`, `set_focus_region`, `reset_roi_settings`, initialization)
starting from a state whose stored settings all satisfy the invariant,
every `ROISettings` stored in `roi_settings` satisfies 0 ≤ x ≤ 1,
0 ≤ y ≤ 1, 0.1 ≤ width ≤ 1, 0.1 ≤ height ≤ 1 and
-9 ≤ exposure_compensation ≤ 9.  The two excluded operations break it:
`set_roi_settings` stores its argument unclamped, and the mouse-ROI
path enforces only a 0.05 lower size bound with no upper or positional
clamp. -/
theorem roi_clamping_ops_preserve_invariant (st : ROIManagerState) (ops : List ROIOp)
    (hinv : StateInv st) (hops : ∀ op ∈ ops, clampingOp op = true) :
    StateInv (ops.foldl applyOp st) := by
  induction ops generalizing st with
  | nil => exact hinv
  | cons op rest ih =>
    simp only [List.foldl_cons]
    exact ih (applyOp st op)
      (clampingOp_preserves_inv st op (hops op (by simp)) hinv)
      (fun o ho => hops o (by simp [ho]))

/-- Witness for the amended C2 at a concrete operation sequence with
out-of-range inputs to every clamping setter. -/
theorem roi_clamping_ops_preserve_invariant_witness :
    StateInv (List.foldl applyOp initialROIState
      [ROIOp.initOp ["CAM_A"], ROIOp.setPosition "CAM_A" 5 (-3),
       ROIOp.setSize "CAM_A" 2 0, ROIOp.setExposureComp "CAM_A" 100,
       ROIOp.enableOp "CAM_A" true, ROIOp.resetOp "CAM_A"]) :=
  roi_clamping_ops_preserve_invariant initialROIState _
    (by intro p hp; simp [initialROIState] at hp) (by decide)

end ROI

namespace GPS

theorem haversine_branch_nonneg (a : ℝ) :
    0 ≤ 6371000 * (2 * Real.arcsin (Real.sqrt a)) :=
  mul_nonneg (by norm_num)
    (mul_nonneg (by norm_num) (Real.arcsin_nonneg.mpr (Real.sqrt_nonneg a)))

theorem haversine_arg_symm (L1 L2 M1 M2 : ℝ) :
    Real.sin ((L2 - L1) / 2) ^ 2 +
        Real.cos L1 * Real.cos L2 * Real.sin ((M2 - M1) / 2) ^ 2 =
      Real.sin ((L1 - L2) / 2) ^ 2 +
        Real.cos L2 * Real.cos L1 * Real.sin ((M1 - M2) / 2) ^ 2 := by
  have e1 : Real.sin ((L1 - L2) / 2) = -Real.sin ((L2 - L1) / 2) := by
    rw [show (L1 - L2) / 2 = -((L2 - L1) / 2) by ring, Real.sin_neg]
  have e2 : Real.sin ((M1 - M2) / 2) = -Real.sin ((M2 - M1) / 2) := by
    rw [show (M1 - M2) / 2 = -((M2 - M1) / 2) by ring, Real.sin_neg]
  rw [e1, e2]
  ring

/-- The zero-coordinate guard of `calculate_distance`. -/
def AllZero (f1 f2 : GpsFix) : Prop :=
  f1.latitude.getD 0 = 0 ∧ f1.longitude.getD 0 = 0 ∧
    f2.latitude.getD 0 = 0 ∧ f2.longitude.getD 0 = 0

theorem calculate_distance_some_pos (f1 f2 : GpsFix) (h : AllZero f1 f2) :
    calculate_distance (some f1) (some f2) = 0 := by
  unfold calculate_distance
  exact if_pos h

theorem calculate_distance_some_neg (f1 f2 : GpsFix) (h : ¬ AllZero f1 f2) :
    calculate_distance (some f1) (some f2) =
      6371000 * (2 * Real.arcsin (Real.sqrt
        (Real.sin ((radians (f2.latitude.getD 0) - radians (f1.latitude.getD 0)) / 2) ^ 2 +
          Real.cos (radians (f1.latitude.getD 0)) * Real.cos (radians (f2.latitude.getD 0)) *
            Real.sin ((radians (f2.longitude.getD 0) - radians (f1.longitude.getD 0)) / 2) ^ 2))) := by
  unfold calculate_distance
  exact if_neg h

end GPS

namespace GPS

/-- C3: `calculate_distance` returns 0 on falsy arguments and when all
four extracted coordinates default to 0; otherwise it is the Haversine
great-circle distance in meters with Earth radius 6371000 and angles in
radians; it is always nonnegative and symmetric in its arguments. -/
theorem calculate_distance_spec :
    (∀ g2, calculate_distance none g2 = 0) ∧
    (∀ g1, calculate_distance g1 none = 0) ∧
    (∀ f1 f2 : GpsFix, AllZero f1 f2 → calculate_distance (some f1) (some f2) = 0) ∧
    (∀ f1 f2 : GpsFix, ¬ AllZero f1 f2 →
      calculate_distance (some f1) (some f2) =
        6371000 * (2 * Real.arcsin (Real.sqrt
          (Real.sin ((radians (f2.latitude.getD 0) - radians (f1.latitude.getD 0)) / 2) ^ 2 +
            Real.cos (radians (f1.latitude.getD 0)) * Real.cos (radians (f2.latitude.getD 0)) *
              Real.sin ((radians (f2.longitude.getD 0) - radians (f1.longitude.getD 0)) / 2) ^ 2)))) ∧
    (∀ g1 g2, 0 ≤ calculate_distance g1 g2) ∧
    (∀ g1 g2, calculate_distance g1 g2 = calculate_distance g2 g1) := by
  refine ⟨?_, ?_, calculate_distance_some_pos, calculate_distance_some_neg, ?_, ?_⟩
  · intro g2
    cases g2 <;> rfl
  · intro g1
    cases g1 <;> rfl
  · intro g1 g2
    cases g1 with
    | none => cases g2 <;> exact le_refl 0
    | some f1 =>
      cases g2 with
      | none => exact le_refl 0
      | some f2 =>
        by_cases h : AllZero f1 f2
        · rw [calculate_distance_some_pos f1 f2 h]
        · rw [calculate_distance_some_neg f1 f2 h]
          exact haversine_branch_nonneg _
  · intro g1 g2
    cases g1 with
    | none => cases g2 <;> rfl
    | some f1 =>
      cases g2 with
      | none => rfl
      | some f2 =>
        by_cases h : AllZero f1 f2
        · have h' : AllZero f2 f1 := ⟨h.2.2.1, h.2.2.2, h.1, h.2.1⟩
          rw [calculate_distance_some_pos f1 f2 h, calculate_distance_some_pos f2 f1 h']
        · have h' : ¬ AllZero f2 f1 := fun hz => h ⟨hz.2.2.1, hz.2.2.2, hz.1, hz.2.1⟩
          rw [calculate_distance_some_neg f1 f2 h, calculate_distance_some_neg f2 f1 h',
            haversine_arg_symm]

/-- Witness for C3: the zero-coordinate guard fires at the origin fix,
and a nonzero fix takes the Haversine branch. -/
theorem calculate_distance_spec_witness :
    calculate_distance (some ⟨some 0, some 0⟩) (some ⟨some 0, some 0⟩) = 0 ∧
    calculate_distance (some ⟨some 45, some 0⟩) (some ⟨some 45, some 0⟩) =
      6371000 * (2 * Real.arcsin (Real.sqrt
        (Real.sin ((radians 45 - radians 45) / 2) ^ 2 +
          Real.cos (radians 45) * Real.cos (radians 45) *
            Real.sin ((radians 0 - radians 0) / 2) ^ 2))) := by
  constructor
  · exact calculate_distance_spec.2.2.1 ⟨some 0, some 0⟩ ⟨some 0, some 0⟩ ⟨rfl, rfl, rfl, rfl⟩
  · exact calculate_distance_spec.2.2.2.1 ⟨some 45, some 0⟩ ⟨some 45, some 0⟩
      (fun hz => by exact absurd hz.1 (by norm_num))

end GPS

namespace FileMgr

/-- C4: `capture_image` never propagates an exception; it returns
`(True, filepath)` exactly when `cv2.imwrite` succeeds, and
`(False, "")` both when imwrite reports failure and when any exception
is raised. -/
theorem capture_image_spec (dir cam fmt ts : String) (custom : Option String)
    (o : ImwriteOutcome) :
    ((capture_image dir cam fmt custom ts o).1 = true ↔ o = .ok true) ∧
    (o = .ok true → capture_image dir cam fmt custom ts o =
      (true, match custom with
             | some c => dir ++ "/" ++ c ++ "." ++ fmt
             | none => dir ++ "/" ++ cam ++ "_" ++ ts ++ "." ++ fmt)) ∧
    (o = .ok false → capture_image dir cam fmt custom ts o = (false, "")) ∧
    (o = .raised → capture_image dir cam fmt custom ts o = (false, "")) := by
  cases o with
  | raised => simp [capture_image]
  | ok b => cases b <;> cases custom <;> simp [capture_image]

/-- Witness for C4: a successful write returns the constructed path,
and a raised exception is reported as `(False, "")`. -/
theorem capture_image_spec_witness :
    capture_image "captures" "CAM_A" "jpg" none "t" (.ok true) =
      (true, "captures/CAM_A_t.jpg") ∧
    capture_image "captures" "CAM_A" "jpg" none "t" .raised = (false, "") := by
  constructor
  · have h := (capture_image_spec "captures" "CAM_A" "jpg" "t" none (.ok true)).2.1 rfl
    rw [h]
    decide
  · exact (capture_image_spec "captures" "CAM_A" "jpg" "t" none .raised).2.2.2 rfl

end FileMgr

namespace CameraCtrl

/-- C5: `get_frame` returns `none` without raising whenever the camera
has no output queue, the queue reports no frame, or retrieval throws;
a frame is returned only when the queue has one. -/
theorem get_frame_spec (qs : List (String × OutputQueue)) (cam : String) :
    (qs.find? (fun p => p.1 == cam) = none → get_frame qs cam = none) ∧
    (∀ q, qs.find? (fun p => p.1 == cam) = some q → q.2.has_frame = false →
      get_frame qs cam = none) ∧
    (∀ q e, qs.find? (fun p => p.1 == cam) = some q → q.2.get_result = .error e →
      get_frame qs cam = none) ∧
    (∀ f, get_frame qs cam = some f →
      ∃ q, qs.find? (fun p => p.1 == cam) = some q ∧ q.2.has_frame = true ∧
        q.2.get_result = .ok f) := by
  refine ⟨?_, ?_, ?_, ?_⟩
  · intro h
    unfold get_frame
    rw [h]
  · intro q hq hhas
    unfold get_frame
    rw [hq]
    simp [hhas]
  · intro q e hq herr
    unfold get_frame
    rw [hq]
    cases hh : q.2.has_frame <;> simp [hh, herr]
  · intro f hf
    unfold get_frame at hf
    cases hq : qs.find? (fun p => p.1 == cam) with
    | none => rw [hq] at hf; simp at hf
    | some q =>
      rw [hq] at hf
      simp only at hf
      cases hh : q.2.has_frame with
      | false => rw [hh] at hf; simp at hf
      | true =>
        rw [hh] at hf
        simp only [if_true] at hf
        cases hr : q.2.get_result with
        | error e => rw [hr] at hf; simp at hf
        | ok fr =>
          rw [hr] at hf
          simp at hf
          exact ⟨q, rfl, hh, by rw [hr, hf]⟩

/-- Witness for C5: a missing queue, an empty queue, a throwing queue,
and a full queue, all at concrete inputs. -/
theorem get_frame_spec_witness :
    get_frame [] "CAM_A" = none ∧
    get_frame [("CAM_A", ⟨false, .ok 7⟩)] "CAM_A" = none ∧
    get_frame [("CAM_A", ⟨true, .error "boom"⟩)] "CAM_A" = none ∧
    (∃ q, [("CAM_A", (⟨true, .ok 7⟩ : OutputQueue))].find? (fun p => p.1 == "CAM_A") =
      some q ∧ q.2.has_frame = true ∧ q.2.get_result = .ok 7) := by
  refine ⟨(get_frame_spec [] "CAM_A").1 rfl,
    (get_frame_spec [("CAM_A", ⟨false, .ok 7⟩)] "CAM_A").2.1 ("CAM_A", ⟨false, .ok 7⟩) rfl rfl,
    (get_frame_spec [("CAM_A", ⟨true, .error "boom"⟩)] "CAM_A").2.2.1
      ("CAM_A", ⟨true, .error "boom"⟩) "boom" rfl rfl,
    (get_frame_spec [("CAM_A", ⟨true, .ok 7⟩)] "CAM_A").2.2.2 7 rfl⟩

end CameraCtrl

/-- C6: both polling loops are cancelled purely by their boolean flags:
with `is_running` false (as `disconnect_gps` sets it) the GPS monitor
loop runs zero body iterations and returns, and with `running` false
(as `stop_roi_processing` sets it) the ROI processing loop runs zero
body iterations and returns — no loop body executes after the flag is
observed false. -/
theorem loop_flag_cancellation :
    (∀ (body : GPS.GPSIntegrationState → GPS.GPSIntegrationState) (fuel : Nat)
        (s : GPS.GPSIntegrationState), s.is_running = false →
        GPS.gps_monitor_run body fuel s = (s, 0)) ∧
    (∀ (body : GPS.GPSIntegrationState → GPS.GPSIntegrationState) (fuel : Nat)
        (s : GPS.GPSIntegrationState),
        GPS.gps_monitor_run body fuel (GPS.disconnect_gps s) = (GPS.disconnect_gps s, 0)) ∧
    (∀ (body : ROI.ROIManagerState → ROI.ROIManagerState) (fuel : Nat)
        (st : ROI.ROIManagerState), st.running = false →
        ROI.roi_run body fuel st = (st, 0)) ∧
    (∀ (body : ROI.ROIManagerState → ROI.ROIManagerState) (fuel : Nat)
        (st : ROI.ROIManagerState),
        ROI.roi_run body fuel (ROI.stop_roi_processing st) = (ROI.stop_roi_processing st, 0)) := by
  have hgps : ∀ body fuel (s : GPS.GPSIntegrationState), s.is_running = false →
      GPS.gps_monitor_run body fuel s = (s, 0) := by
    intro body fuel s h
    cases fuel with
    | zero => rfl
    | succ n => simp [GPS.gps_monitor_run, h]
  have hroi : ∀ body fuel (st : ROI.ROIManagerState), st.running = false →
      ROI.roi_run body fuel st = (st, 0) := by
    intro body fuel st h
    cases fuel with
    | zero => rfl
    | succ n => simp [ROI.roi_run, h]
  exact ⟨hgps, fun body fuel s => hgps body fuel _ rfl,
    hroi, fun body fuel st => hroi body fuel _ rfl⟩

/-- Witness for C6 at concrete states and fuel. -/
theorem loop_flag_cancellation_witness :
    GPS.gps_monitor_run id 5 ⟨none, none, false, false, none⟩ =
      (⟨none, none, false, false, none⟩, 0) ∧
    ROI.roi_run id 5 ROI.initialROIState = (ROI.initialROIState, 0) :=
  ⟨loop_flag_cancellation.1 id 5 _ rfl, loop_flag_cancellation.2.2.1 id 5 _ rfl⟩

/-- C7: every successful GPS connection opens the serial port at 4800
baud, 1 s timeout, no parity, one stop bit, eight data bits; in
`GPSIntegration` the returned boolean always equals the connected
state, and both classes return False when no usable port exists or
opening raises `SerialException`. -/
theorem connect_gps_spec :
    (∀ (env : GPS.SerialEnv) (s : GPS.GPSIntegrationState),
        (GPS.connect_gps env s).1 = (GPS.connect_gps env s).2.is_connected) ∧
    (∀ (env : GPS.SerialEnv) (s : GPS.GPSIntegrationState),
        s.is_connected = false → (GPS.connect_gps env s).1 = true →
        ∃ p, env.found_port = some p ∧ env.open_ok p = true ∧
          (GPS.connect_gps env s).2.ser = some ⟨p, ⟨4800, 1, .NONE, 1, 8⟩⟩) ∧
    (∀ (env : GPS.SerialEnv) (s : GPS.GPSIntegrationState),
        s.is_connected = false → env.found_port = none →
        (GPS.connect_gps env s).1 = false) ∧
    (∀ (env : GPS.SerialEnv) (s : GPS.GPSIntegrationState) (p : String),
        s.is_connected = false → env.found_port = some p → env.open_ok p = false →
        (GPS.connect_gps env s).1 = false) ∧
    (∀ (env : GDC.GDCEnv) (s : GDC.GDCState),
        (GDC.connect_gps env s).1 = true →
        ∃ p, env.open_ok p = true ∧
          (GDC.connect_gps env s).2.ser = some ⟨p, ⟨4800, 1, .NONE, 1, 8⟩⟩) ∧
    (∀ (env : GDC.GDCEnv) (s : GDC.GDCState),
        env.found_port = none → env.manual_input = "" →
        (GDC.connect_gps env s).1 = false) ∧
    (∀ (env : GDC.GDCEnv) (s : GDC.GDCState) (p : String),
        env.found_port = some p → env.open_ok p = false →
        (GDC.connect_gps env s).1 = false) ∧
    (∀ (env : GDC.GDCEnv) (s : GDC.GDCState),
        env.found_port = none → env.manual_input ≠ "" →
        env.open_ok env.manual_input = false → (GDC.connect_gps env s).1 = false) := by
  refine ⟨?_, ?_, ?_, ?_, ?_, ?_, ?_, ?_⟩
  · intro env s
    cases hc : s.is_connected with
    | true => simp [GPS.connect_gps, hc]
    | false =>
      cases hf : env.found_port with
      | none => simp [GPS.connect_gps, hc, hf]
      | some p =>
        cases ho : env.open_ok p with
        | true => simp [GPS.connect_gps, hc, hf, ho]
        | false => simp [GPS.connect_gps, hc, hf, ho]
  · intro env s hc hb
    cases hf : env.found_port with
    | none => simp [GPS.connect_gps, hc, hf] at hb
    | some p =>
      cases ho : env.open_ok p with
      | false => simp [GPS.connect_gps, hc, hf, ho] at hb
      | true =>
        refine ⟨p, rfl, ho, ?_⟩
        simp [GPS.connect_gps, hc, hf, ho]
  · intro env s hc hf
    simp [GPS.connect_gps, hc, hf]
  · intro env s p hc hf ho
    simp [GPS.connect_gps, hc, hf, ho]
  · intro env s hb
    cases hf : env.found_port with
    | some p =>
      cases ho : env.open_ok p with
      | false => simp [GDC.connect_gps, hf, ho] at hb
      | true =>
        refine ⟨p, ho, ?_⟩
        simp [GDC.connect_gps, hf, ho]
    | none =>
      cases hm : env.manual_input == "" with
      | true =>
        have hme : env.manual_input = "" := by simpa using hm
        simp [GDC.connect_gps, hf, hme] at hb
      | false =>
        have hne : ¬ env.manual_input = "" := by simpa using hm
        cases ho : env.open_ok env.manual_input with
        | false => simp [GDC.connect_gps, hf, hne, ho] at hb
        | true =>
          refine ⟨env.manual_input, ho, ?_⟩
          simp [GDC.connect_gps, hf, hne, ho]
  · intro env s hf hm
    simp [GDC.connect_gps, hf, hm]
  · intro env s p hf ho
    simp [GDC.connect_gps, hf, ho]
  · intro env s hf hm ho
    simp [GDC.connect_gps, hf, hm, ho]

/-- Witness for C7: a found port that opens, a missing port, and a port
whose opening raises, at concrete environments. -/
theorem connect_gps_spec_witness :
    (GPS.connect_gps ⟨some "COM3", fun _ => true⟩ ⟨none, none, false, false, none⟩).1 = true ∧
    (GPS.connect_gps ⟨none, fun _ => true⟩ ⟨none, none, false, false, none⟩).1 = false ∧
    (GPS.connect_gps ⟨some "COM3", fun _ => false⟩ ⟨none, none, false, false, none⟩).1 = false ∧
    (GDC.connect_gps ⟨none, "", fun _ => true⟩ ⟨none, none⟩).1 = false ∧
    (GDC.connect_gps ⟨some "COM4", "", fun _ => false⟩ ⟨none, none⟩).1 = false := by
  refine ⟨?_, ?_, ?_, ?_, ?_⟩
  · have h := connect_gps_spec.1 ⟨some "COM3", fun _ => true⟩ ⟨none, none, false, false, none⟩
    rw [h]
    rfl
  · exact connect_gps_spec.2.2.1 ⟨none, fun _ => true⟩ ⟨none, none, false, false, none⟩ rfl rfl
  · exact connect_gps_spec.2.2.2.1 ⟨some "COM3", fun _ => false⟩
      ⟨none, none, false, false, none⟩ "COM3" rfl rfl rfl
  · exact connect_gps_spec.2.2.2.2.2.1 ⟨none, "", fun _ => true⟩ ⟨none, none⟩ rfl rfl
  · exact connect_gps_spec.2.2.2.2.2.2.1 ⟨some "COM4", "", fun _ => false⟩
      ⟨none, none⟩ "COM4" rfl rfl

namespace GPS

/-- C8: `get_direction` returns `None` exactly on a `None` argument,
and for every real degree value the index `round(degrees / 22.5) % 16`
lies in [0, 15], so the result is one of the 16 cardinal-direction
strings and the list indexing never goes out of bounds; the
`GPSDataCapture` copy behaves identically. -/
theorem get_direction_spec :
    get_direction none = none ∧
    GDC.get_direction none = none ∧
    (∀ d : ℝ, GDC.get_direction (some d) = get_direction (some d)) ∧
    (∀ d : ℝ,
      0 ≤ round (d / 22.5) % 16 ∧ round (d / 22.5) % 16 < 16 ∧
      (round (d / 22.5) % 16).toNat < directions.length ∧
      get_direction (some d) =
        some (directions.getD (round (d / 22.5) % 16).toNat "") ∧
      directions.getD (round (d / 22.5) % 16).toNat "" ∈ directions) := by
  refine ⟨rfl, rfl, fun d => rfl, ?_⟩
  intro d
  have h0 : (0 : ℤ) ≤ round (d / 22.5) % 16 := Int.emod_nonneg _ (by norm_num)
  have h1 : round (d / 22.5) % 16 < 16 := Int.emod_lt_of_pos _ (by norm_num)
  have hlen : directions.length = 16 := rfl
  have h2 : (round (d / 22.5) % 16).toNat < directions.length := by
    rw [hlen]
    omega
  refine ⟨h0, h1, h2, rfl, ?_⟩
  rw [List.getD_eq_getElem directions "" h2]
  exact List.getElem_mem h2

end GPS

namespace FileMgr

theorem openWriters_ok (wo : String → Bool) (dir ts ext : String) :
    ∀ (names : List String) (acc : List (String × VideoWriter)),
      (∀ c ∈ names, wo c = true) →
      openWriters wo dir ts ext names acc = .ok (writersAfter wo dir ts ext acc names) := by
  intro names
  induction names with
  | nil => intro acc h; rfl
  | cons c rest ih =>
    intro acc h
    have hc : wo c = true := h c (by simp)
    simp only [openWriters, writersAfter, hc, if_true]
    exact ih _ (fun x hx => h x (by simp [hx]))

theorem openWriters_err (wo : String → Bool) (dir ts ext : String) (c : String)
    (hc : wo c = false) :
    ∀ (pre : List String) (acc : List (String × VideoWriter)),
      (∀ x ∈ pre, wo x = true) → ∀ post,
      openWriters wo dir ts ext (pre ++ c :: post) acc =
        .error (c, writersAfter wo dir ts ext acc pre) := by
  intro pre
  induction pre with
  | nil =>
    intro acc h post
    simp [openWriters, writersAfter, hc]
  | cons x rest ih =>
    intro acc h post
    have hx : wo x = true := h x (by simp)
    simp only [List.cons_append, openWriters, writersAfter, hx, if_true]
    exact ih _ (fun y hy => h y (by simp [hy])) post

theorem openWriters_all_open (wo : String → Bool) (dir ts ext : String) :
    ∀ (names : List String) (acc : List (String × VideoWriter)) ws,
      openWriters wo dir ts ext names acc = .ok ws → ∀ c ∈ names, wo c = true := by
  intro names
  induction names with
  | nil => intro acc ws h c hc; simp at hc
  | cons x rest ih =>
    intro acc ws h c hc
    cases hx : wo x with
    | false =>
      exfalso
      simp [openWriters, hx] at h
    | true =>
      rcases List.mem_cons.mp hc with hceq | hm
      · rw [hceq]; exact hx
      · have h' := h
        simp only [openWriters, hx, if_true] at h'
        exact ih _ ws h' c hm

end FileMgr

namespace FileMgr

/-- C9: `start_video_recording` is atomic on failure.  When already
recording it returns `(False, "Recording already in progress")` with
the state unchanged; when every writer opens it starts recording with
all of them; when some writer fails to open it returns the failure
message, releases everything in the writer dictionary, leaves it empty
and `recording` False; and `recording` becomes True only when a writer
opened for every requested camera. -/
theorem start_video_recording_atomic :
    (∀ wo strf (now : ℚ) (s : FileManagerState) names codec, s.recording = true →
        start_video_recording wo strf now s names codec =
          ((false, "Recording already in progress"), s, [])) ∧
    (∀ wo strf (now : ℚ) (s : FileManagerState) names codec, s.recording = false →
        (∀ c ∈ names, wo c = true) →
        start_video_recording wo strf now s names codec =
          ((true, "Recording started for " ++ toString names.length ++ " cameras"),
           { s with
             video_writers := writersAfter wo s.save_directory (strf now)
               (codecExtension (codec.getD s.current_codec)) s.video_writers names,
             recording := true, recording_start_time := some now }, [])) ∧
    (∀ wo strf (now : ℚ) (s : FileManagerState) codec pre c post, s.recording = false →
        (∀ x ∈ pre, wo x = true) → wo c = false →
        start_video_recording wo strf now s (pre ++ c :: post) codec =
          ((false, "Failed to create video writer for " ++ c),
           { s with video_writers := [] },
           (writersAfter wo s.save_directory (strf now)
             (codecExtension (codec.getD s.current_codec)) s.video_writers pre).map
               (fun p => p.2))) ∧
    (∀ wo strf (now : ℚ) (s : FileManagerState) names codec, s.recording = false →
        (start_video_recording wo strf now s names codec).2.1.recording = true →
        ∀ c ∈ names, wo c = true) := by
  refine ⟨?_, ?_, ?_, ?_⟩
  · intro wo strf now s names codec h
    simp [start_video_recording, h]
  · intro wo strf now s names codec h hall
    simp only [start_video_recording, h, Bool.false_eq_true, if_false,
      openWriters_ok wo s.save_directory (strf now)
        (codecExtension (codec.getD s.current_codec)) names s.video_writers hall]
  · intro wo strf now s codec pre c post h hpre hc
    simp only [start_video_recording, h, Bool.false_eq_true, if_false,
      openWriters_err wo s.save_directory (strf now)
        (codecExtension (codec.getD s.current_codec)) c hc pre s.video_writers hpre post]
  · intro wo strf now s names codec h hrec
    cases hres : openWriters wo s.save_directory (strf now)
        (codecExtension (codec.getD s.current_codec)) names s.video_writers with
    | ok ws =>
      exact openWriters_all_open wo s.save_directory (strf now)
        (codecExtension (codec.getD s.current_codec)) names s.video_writers ws hres
    | error e =>
      exfalso
      cases e with
      | mk ec eo =>
        simp only [start_video_recording, h, Bool.false_eq_true, if_false, hres] at hrec

/-- Witness for C9: an in-progress recording is refused, a fully
opening camera set starts recording, and a failing writer clears the
dictionary and leaves `recording` False. -/
theorem start_video_recording_atomic_witness :
    start_video_recording (fun _ => true) (fun _ => "ts") 0
        ⟨"captures", [], true, none, "MJPG"⟩ ["CAM_A"] none =
      ((false, "Recording already in progress"), ⟨"captures", [], true, none, "MJPG"⟩, []) ∧
    (start_video_recording (fun _ => true) (fun _ => "ts") 0
        ⟨"captures", [], false, none, "MJPG"⟩ ["CAM_A"] none).2.1.recording = true ∧
    (start_video_recording (fun _ => false) (fun _ => "ts") 0
        ⟨"captures", [], false, none, "MJPG"⟩ ([] ++ "CAM_B" :: []) none).2.1.video_writers = [] ∧
    (start_video_recording (fun _ => false) (fun _ => "ts") 0
        ⟨"captures", [], false, none, "MJPG"⟩ ([] ++ "CAM_B" :: []) none).2.1.recording = false := by
  have h1 := start_video_recording_atomic.1 (fun _ => true) (fun _ => "ts") 0
    ⟨"captures", [], true, none, "MJPG"⟩ ["CAM_A"] none rfl
  have h2 := start_video_recording_atomic.2.1 (fun _ => true) (fun _ => "ts") 0
    ⟨"captures", [], false, none, "MJPG"⟩ ["CAM_A"] none rfl (fun c _ => rfl)
  have h3 := start_video_recording_atomic.2.2.1 (fun _ => false) (fun _ => "ts") 0
    ⟨"captures", [], false, none, "MJPG"⟩ none [] "CAM_B" [] rfl
    (fun x hx => absurd hx (List.not_mem_nil x)) rfl
  refine ⟨h1, ?_, ?_, ?_⟩
  · rw [h2]
  · rw [h3]
  · rw [h3]

end FileMgr

namespace FileMgr

/-- C10: whenever a recording is in progress, `stop_video_recording`
succeeds, clears the writer dictionary, sets `recording` to False, and
its message always reports a duration of 0.0 seconds regardless of the
actual duration, because `recording_start_time` is set to `None` before
the duration is computed. -/
theorem stop_video_recording_spec (strf : ℚ → String) (now : ℚ)
    (s : FileManagerState) (h : s.recording = true) :
    stop_video_recording strf now s =
      ((true, "Recording stopped. Duration: 0.0s",
        s.video_writers.map (fun p => s.save_directory ++ "/" ++ p.1 ++ "_video_" ++
          (match s.recording_start_time with
           | some t => strf t
           | none => "unknown") ++ "." ++ codecExtension s.current_codec)),
       { s with video_writers := [], recording := false,
                recording_start_time := none }) := by
  have hfmt : fmtFixed1 0 = "0.0" := by
    unfold fmtFixed1
    norm_num
    rfl
  simp only [stop_video_recording, h, Bool.not_true, Bool.false_eq_true, if_false, hfmt]
  rfl

/-- Witness for C10: a recording session started at time 100 and
stopped at time 9100 still reports a 0.0 s duration. -/
theorem stop_video_recording_spec_witness :
    stop_video_recording (fun _ => "ts") 9100
        ⟨"captures", [("CAM_A", ⟨"captures/CAM_A_video_ts.avi", true⟩)], true, some 100, "MJPG"⟩ =
      ((true, "Recording stopped. Duration: 0.0s", ["captures/CAM_A_video_ts.avi"]),
       ⟨"captures", [], false, none, "MJPG"⟩) := by
  have h := stop_video_recording_spec (fun _ => "ts") 9100
    ⟨"captures", [("CAM_A", ⟨"captures/CAM_A_video_ts.avi", true⟩)], true, some 100, "MJPG"⟩ rfl
  rw [h]
  rfl

end FileMgr
